import Mathlib

/-!
Verification of the AI-Voice-Agent real-time voice pipeline.

This file embeds, in Lean, the turn-detection WebSocket endpoint of
`server/app_refactored.py` (`websocket_turn_detection`, its nested helpers
`send_turn_end_notification` and `check_turn_timeout`), the chat-history
manager (`server/services/chat_manager.py`), the Murf TTS service
(`server/services/tts_service.py`) and the Gemini LLM streaming generator
(`server/services/llm_service.py`), and proves the spec's claims about them.

Modelling conventions:
* Wall-clock timestamps (`time.time()`, float seconds) are integers counting
  milliseconds, so the comparisons against the constants 1.5 s and 0.5 s
  (exactly representable as 1500 ms and 500 ms) are exact.  The few places
  where the code reads `time.time()` twice within one handler (e.g. once for
  `current_time` and once inside `check_turn_timeout`) are modelled with a
  single per-event timestamp.
* The external collaborators (Gemini stream, Murf HTTP transport) are oracles
  supplied as parameters; the *service-layer* Python code that wraps them is
  embedded faithfully, including its exception handling.
* `ws.send` is assumed to deliver (a live connection); message payload fields
  that are pure metadata (timestamps, session ids) are omitted from the
  message model.
* Outputs are traces of `Action`s: protocol messages sent, chat-history
  appends, and invocations of the three external engines.
-/

namespace VoiceAgent

/-- The ASCII whitespace characters removed by Python `str.strip()` (the
transcripts at issue are ASCII; exotic Unicode whitespace is immaterial). -/
def pyIsSpace (c : Char) : Bool :=
  c = ' ' || c = '\t' || c = '\n' || c = '\x0d' || c = '\x0b' || c = '\x0c'

/-- Python `str.strip()`: whitespace removed from both ends. -/
def pyStrip (s : String) : String :=
  String.mk (((s.data.dropWhile pyIsSpace).reverse.dropWhile pyIsSpace).reverse)

/-- `ErrorType` from `server/models/schemas.py`. -/
inductive ErrorType where
  | STT_ERROR
  | LLM_ERROR
  | TTS_ERROR
  | GENERAL_ERROR
  | API_KEY_MISSING
  | TIMEOUT_ERROR
deriving DecidableEq, Repr

/-- `MessageRole` from `server/models/schemas.py`. -/
inductive MessageRole where
  | user
  | assistant
deriving DecidableEq, Repr

/-- `ChatMessage` from `server/models/schemas.py`. -/
structure ChatMessage where
  role : MessageRole
  content : String
deriving DecidableEq, Repr

/-- `Config.MAX_CHAT_HISTORY` from `server/utils/config.py` (line 115). -/
def MAX_CHAT_HISTORY : Nat := 50

/-- The last `n` elements of a list, in order: Python `l[-n:]` for `n > 0`. -/
def takeLast (n : Nat) (l : List α) : List α := l.drop (l.length - n)

/-- `ChatManager.add_message` (`server/services/chat_manager.py`, lines 17-36),
restricted to one session's list: append the new message, then, if the length
exceeds `Config.MAX_CHAT_HISTORY`, keep only the last `MAX_CHAT_HISTORY`
entries (`self.chat_history_store[session_id][-Config.MAX_CHAT_HISTORY:]`). -/
def add_message (history : List ChatMessage) (role : MessageRole) (content : String) :
    List ChatMessage :=
  let h := history ++ [⟨role, content⟩]
  if h.length > MAX_CHAT_HISTORY then takeLast MAX_CHAT_HISTORY h else h

/-- The canned fallback phrases of `TTSService._create_fallback_response`
(`server/services/tts_service.py`, lines 116-133).  Every `ErrorType` is a key
of the Python dict, so the `.get(..., default)` fallback to `GENERAL_ERROR`
never fires. -/
def fallbackTexts : ErrorType → String
  | .STT_ERROR =>
      "I'm having trouble hearing you right now. Could you please try speaking again?"
  | .LLM_ERROR =>
      "I'm having trouble thinking right now. My AI brain seems to be taking a coffee break. Please try again in a moment."
  | .TTS_ERROR =>
      "I'm having trouble speaking right now, but I'm still listening and thinking!"
  | .GENERAL_ERROR =>
      "I'm experiencing some technical difficulties right now. Please bear with me while I get back on track."
  | .API_KEY_MISSING =>
      "I'm not properly configured right now. Please check my settings and try again."
  | .TIMEOUT_ERROR =>
      "I'm taking a bit longer than usual to respond. Please try again in a moment."

/-- Python exceptions relevant to the TTS service bodies. -/
inductive PyExc where
  | nameError (name : String)
  | requestsTimeout
  | requestsException
  | generic
deriving DecidableEq, Repr

/-- Module-level names of `server/services/tts_service.py` (imports and
top-level definitions).  `current_api_key` is not among them: it is only ever
assigned as a local variable inside `TTSService.generate_speech` (line 43),
and it is not a Python builtin either. -/
def ttsModuleGlobals : List String :=
  ["requests", "Optional", "Tuple", "Config", "get_logger", "logger",
   "TTSResponse", "ErrorType", "TTSService", "tts_service"]

/-- Evaluating a bare name in a Python method body: found if it is a local of
that body or a module-level global; otherwise a `NameError` is raised. -/
def lookupName (locals : List String) (n : String) : Except PyExc Unit :=
  if n ∈ locals ∨ n ∈ ttsModuleGlobals then .ok () else .error (.nameError n)

/-- Locals bound in the body of `TTSService.generate_streaming_base64_audio`
(`tts_service.py`, lines 304-401) at the point the `headers` dict is
evaluated: the parameters `self`, `text`, `chunk_size` and the earlier
assignment `payload`. -/
def streamingAudioLocals : List String := ["self", "text", "chunk_size", "payload"]

/-- Locals bound in the body of `TTSService.generate_fast_base64_audio`
(`tts_service.py`, lines 224-302) at the point the `headers` dict is
evaluated: the parameters `self`, `text` and the earlier assignment
`payload`. -/
def fastAudioLocals : List String := ["self", "text", "payload"]

/-- Outcome of the Murf HTTP transport, were the requests actually issued:
status of the generation POST, the `audioFile`/`url` field of its JSON
response (`""` when absent, which Python treats as falsy), and the status and
body of the audio-download GET. -/
structure HttpEnv where
  postStatus : Nat
  murfAudioUrl : String
  getStatus : Nat
  audioContent : List Nat
deriving DecidableEq, Repr

/-- The base64 alphabet used by `base64.b64encode`. -/
def b64Chars : List Char :=
  "ABCDEFGHIJKLMNOPQRSTUVWXYZabcdefghijklmnopqrstuvwxyz0123456789+/".toList

/-- Character `n` of the base64 alphabet. -/
def b64Char (n : Nat) : Char := b64Chars.getD n 'A'

/-- `base64.b64encode(bytes).decode('utf-8')`: standard base64 with `=`
padding, 3 input bytes per 4 output characters. -/
def b64encode : List Nat → List Char
  | [] => []
  | [a] =>
      [b64Char (a / 4 % 64), b64Char (a % 4 * 16), '=', '=']
  | [a, b] =>
      [b64Char (a / 4 % 64), b64Char (a % 4 * 16 + b / 16 % 16),
       b64Char (b % 16 * 4), '=']
  | a :: b :: c :: rest =>
      [b64Char (a / 4 % 64), b64Char (a % 4 * 16 + b / 16 % 16),
       b64Char (b % 16 * 4 + c / 64 % 4), b64Char (c % 64)]
      ++ b64encode rest

/-- The chunk-splitting loop `for i in range(0, len(base64_audio), chunk_size)`
of `generate_streaming_base64_audio` (lines 373-376): consecutive slices of
`n` characters.  (`n = 0` would raise in Python; both call sites pass literal
512 or 256.) -/
def chunkSplit (n : Nat) (l : List Char) : List String :=
  if _h : l = [] ∨ n = 0 then []
  else String.mk (l.take n) :: chunkSplit n (l.drop n)
termination_by l.length
decreasing_by
  push_neg at _h
  simp only [List.length_drop]
  have hl : l.length ≠ 0 := fun hz => _h.1 (List.eq_nil_of_length_eq_zero hz)
  omega

/-- Exception-to-result mapping of the `except` clauses of
`generate_streaming_base64_audio` (lines 393-401): `requests` timeout maps to
`TIMEOUT_ERROR`, everything else (including `NameError`) to `TTS_ERROR`. -/
def excToStreamError (e : PyExc) : ErrorType :=
  match e with
  | .requestsTimeout => .TIMEOUT_ERROR
  | _ => .TTS_ERROR

/-- The `try` body of `TTSService.generate_streaming_base64_audio`
(`tts_service.py`, lines 315-391), paired with the number of HTTP requests it
performs.  After the two guard checks, evaluating the `headers` dict reads the
bare name `current_api_key` (line 347); the name lookup happens before
`requests.post` is reached. -/
def streamingTryBody (murfConfigured : Bool) (http : HttpEnv) (text : String)
    (chunk_size : Nat) : Except PyExc (Bool × List String × Option ErrorType) × Nat :=
  if !murfConfigured then (.ok (false, [], some .API_KEY_MISSING), 0)
  else if pyStrip text = "" then (.ok (false, [], some .TTS_ERROR), 0)
  else
    match lookupName streamingAudioLocals "current_api_key" with
    | .error e => (.error e, 0)
    | .ok _ =>
      if http.postStatus = 200 then
        if http.murfAudioUrl ≠ "" then
          if http.getStatus = 200 then
            (.ok (true, chunkSplit chunk_size (b64encode http.audioContent), none), 2)
          else (.ok (false, [], some .TTS_ERROR), 2)
        else (.ok (false, [], some .TTS_ERROR), 1)
      else (.ok (false, [], some .TTS_ERROR), 1)

/-- `TTSService.generate_streaming_base64_audio` (lines 304-401): the `try`
body with its `except` clauses.  Returns the Python result triple and the
number of HTTP requests issued. -/
def generate_streaming_base64_audio (murfConfigured : Bool) (http : HttpEnv)
    (text : String) (chunk_size : Nat) :
    (Bool × List String × Option ErrorType) × Nat :=
  match streamingTryBody murfConfigured http text chunk_size with
  | (.ok r, n) => (r, n)
  | (.error e, n) => ((false, [], some (excToStreamError e)), n)

/-- Exception mapping of `generate_fast_base64_audio` (lines 297-302): only a
timeout clause and a generic clause (a `requests` exception also lands in the
generic clause, yielding `TTS_ERROR`). -/
def excToFastError (e : PyExc) : ErrorType :=
  match e with
  | .requestsTimeout => .TIMEOUT_ERROR
  | _ => .TTS_ERROR

/-- The `try` body of `TTSService.generate_fast_base64_audio`
(`tts_service.py`, lines 234-295), paired with the number of HTTP requests.
As in the streaming variant, the `headers` dict (line 262) reads the unbound
name `current_api_key` before `requests.post` is reached. -/
def fastTryBody (murfConfigured : Bool) (http : HttpEnv) (text : String) :
    Except PyExc (Bool × String × Option ErrorType) × Nat :=
  if !murfConfigured then (.ok (false, "", some .API_KEY_MISSING), 0)
  else if pyStrip text = "" then (.ok (false, "", some .TTS_ERROR), 0)
  else
    match lookupName fastAudioLocals "current_api_key" with
    | .error e => (.error e, 0)
    | .ok _ =>
      if http.postStatus = 200 then
        if http.murfAudioUrl ≠ "" then
          if http.getStatus = 200 then
            (.ok (true, String.mk (b64encode http.audioContent), none), 2)
          else (.ok (false, "", some .TTS_ERROR), 2)
        else (.ok (false, "", some .TTS_ERROR), 1)
      else (.ok (false, "", some .TTS_ERROR), 1)

/-- `TTSService.generate_fast_base64_audio` (lines 224-302). -/
def generate_fast_base64_audio (murfConfigured : Bool) (http : HttpEnv)
    (text : String) : (Bool × String × Option ErrorType) × Nat :=
  match fastTryBody murfConfigured http text with
  | (.ok r, n) => (r, n)
  | (.error e, n) => ((false, "", some (excToFastError e)), n)

/-- Protocol messages sent over the turn-detection WebSocket (metadata fields
such as timestamps and `session_id` omitted). -/
inductive Msg where
  | status (message : String)
  | pong
  | chunkReceived (size : Nat)
  | transcriptionUpdate (transcript : String)
  | turnEnd (transcript : String)
  | llmStreamChunk (chunk : String) (isComplete : Bool)
      (fullResponse : Option String) (messageCount : Option Nat)
  | earlyAudioChunk (audioBase64 : String) (textPart : String)
  | murfBase64AudioChunk (chunk : String) (chunkIndex : Nat)
      (totalChunks : Nat) (isComplete : Bool) (text : String)
  | conversationComplete (userMessage : String) (assistantResponse : String)
      (messageCount : Nat)
  | audioFallback (errorType : Option ErrorType) (fallbackText : String)
  | pipelineError (error : String)
  | errorMsg (message : String)
deriving DecidableEq, Repr

/-- Observable actions of the session handler: a message sent to the client, a
chat-history append, or an invocation of one of the external engines. -/
inductive Action where
  | send (m : Msg)
  | histAppend (role : MessageRole) (content : String)
  | sttCall
  | llmCall (prompt : String)
  | ttsCall (text : String) (chunkSize : Nat)
deriving DecidableEq, Repr

/-- Behaviour of the underlying Gemini response stream for one call: it either
yields a list of `chunk.text` values and terminates, or yields a prefix and
then raises with message `msg`. -/
inductive LlmStreamOutcome where
  | yields (chunks : List String)
  | raises (pre : List String) (msg : String)
deriving DecidableEq, Repr

/-- `LLMService.generate_streaming_response` (`server/services/llm_service.py`,
lines 190-277): the generator's whole body sits in a `try`.  An unconfigured
key or empty prompt yields a single bracketed notice; otherwise the loop
`for chunk in response_stream: if chunk.text: yield chunk.text` forwards the
non-empty chunk texts, and any exception raised by the stream is caught by the
trailing `except Exception` which yields
`"[LLM streaming error: ...]"` as one final ordinary chunk — the generator
itself never raises.  (Voice-command and web-search handling only alter the
prompt sent to Gemini, not the shape of what is yielded.) -/
def generate_streaming_response (geminiConfigured : Bool)
    (outcome : LlmStreamOutcome) (prompt : String) : List String :=
  if !geminiConfigured then ["[Please configure Gemini API key in settings]"]
  else if pyStrip prompt = "" then ["[Empty prompt provided]"]
  else
    match outcome with
    | .yields cs => cs.filter (fun c => c ≠ "")
    | .raises pre m => pre.filter (fun c => c ≠ "") ++ ["[LLM streaming error: " ++ m ++ "]"]

/-- The external collaborators of one turn-detection session: whether the
Gemini key is user-configured, the behaviour of the Gemini stream, and the TTS
callable `tts_service.generate_streaming_base64_audio` (abstracted so that
both the real, always-failing service of `tts_service.py` and the
collaborator contract of spec section 6 can be plugged in). -/
structure Collab where
  geminiConfigured : Bool
  llm : LlmStreamOutcome
  tts : String → Nat → Bool × List String × Option ErrorType

/-- The per-connection state of `websocket_turn_detection`
(`app_refactored.py`, lines 1179-1186), plus this session's slice of the
global `chat_manager` store. -/
structure DetState where
  current_transcript : String
  last_speech_time : Option ℤ
  is_speaking : Bool
  audio_chunks : List (List Nat)
  transcription_buffer : List (List Nat)
  last_transcription_time : ℤ
  history : List ChatMessage

/-- `turn_timeout = 1.5` seconds (line 1181), in milliseconds. -/
def turn_timeout : ℤ := 1500

/-- `transcription_interval = 0.5` seconds (line 1186), in milliseconds. -/
def transcription_interval : ℤ := 500

/-- The `llm_stream_chunk` forwarding of the streaming loop
(`app_refactored.py`, lines 1215-1223): every yielded chunk is sent
immediately with `is_complete=False`. -/
def llmChunkActs (chunks : List String) : List Action :=
  chunks.map (fun ch => Action.send (.llmStreamChunk ch false none none))

/-- The `murf_base64_audio_chunk` emission loop and its completion signal
(`app_refactored.py`, lines 1250-1270): one message per chunk carrying its
index and the total count with `is_complete=False`, then one terminal message
with index = total, empty payload and `is_complete=True`. -/
def murfChunkActs (bchunks : List String) (R : String) : List Action :=
  (bchunks.enum.map (fun p =>
    Action.send (.murfBase64AudioChunk p.2 p.1 bchunks.length false R)))
  ++ [.send (.murfBase64AudioChunk "" bchunks.length bchunks.length true R)]

/-- Step 5 of the pipeline (lines 1246-1292): on TTS success, the chunk
sequence followed by `conversation_complete`; on failure, a single
`audio_fallback` from `_create_fallback_response(error_type or TTS_ERROR)`. -/
def ttsStageActs (tr : Bool × List String × Option ErrorType) (T R : String)
    (mc : Nat) : List Action :=
  if tr.1 then
    murfChunkActs tr.2.1 R ++ [.send (.conversationComplete T R mc)]
  else
    [.send (.audioFallback tr.2.2 (fallbackTexts (tr.2.2.getD .TTS_ERROR)))]

/-- `send_turn_end_notification` (`app_refactored.py`, lines 1188-1310).
Guard: only when `is_speaking and current_transcript.strip()`.  It then sends
`turn_end`, and — when the Gemini key is configured — runs the full pipeline
inline: add user message, stream LLM chunks (each forwarded immediately), add
assistant message, send the terminal `llm_stream_chunk` (whose
`message_count` is taken *after* both appends), call full-response TTS with
`chunk_size=512`, and run the TTS emission stage.  Finally
`current_transcript` is cleared and `is_speaking` reset. -/
def sendTurnEndNotification (c : Collab) (s : DetState) : DetState × List Action :=
  if s.is_speaking = true ∧ pyStrip s.current_transcript ≠ "" then
    let T := s.current_transcript
    if c.geminiConfigured then
      let h1 := add_message s.history .user T
      let chunks := generate_streaming_response c.geminiConfigured c.llm T
      let R := String.join chunks
      let h2 := add_message h1 .assistant R
      let mc := h2.length
      let tr := c.tts R 512
      ({ s with current_transcript := "", is_speaking := false, history := h2 },
       [.send (.turnEnd T), .histAppend .user T, .llmCall T]
       ++ llmChunkActs chunks
       ++ [.histAppend .assistant R,
           .send (.llmStreamChunk "" true (some R) (some mc)),
           .ttsCall R 512]
       ++ ttsStageActs tr T R mc)
    else
      ({ s with current_transcript := "", is_speaking := false },
       [.send (.turnEnd T), .send (.pipelineError "Gemini API key not configured")])
  else (s, [])

/-- `check_turn_timeout` (`app_refactored.py`, lines 1312-1316):
`if is_speaking and last_speech_time and (time.time() - last_speech_time) >
turn_timeout`.  A float is falsy exactly when it is `0.0`, hence the `t ≠ 0`
conjunct. -/
def checkTurnTimeout (c : Collab) (s : DetState) (now : ℤ) : DetState × List Action :=
  if s.is_speaking then
    match s.last_speech_time with
    | some t =>
        if t ≠ 0 ∧ now - t > turn_timeout then sendTurnEndNotification c s
        else (s, [])
    | none => (s, [])
  else (s, [])

/-- Result of one `transcriber.transcribe` call (`app_refactored.py`, lines
1405-1444): completed with `transcript.text` (possibly `None`), completed=False
status, or an exception from the call. -/
inductive SttOutcome where
  | completed (text : Option String)
  | failedStatus
  | exn
deriving DecidableEq, Repr

/-- The silence branches of the transcription cycle (empty/None text, failed
status, or exception all do `if is_speaking: check_turn_timeout()`). -/
def silenceTick (c : Collab) (s : DetState) (now : ℤ) : DetState × List Action :=
  if s.is_speaking then checkTurnTimeout c s now else (s, [])

/-- One transcription cycle (`app_refactored.py`, lines 1392-1444): on
completed, non-empty, non-whitespace text (`transcript.text and
transcript.text.strip()`), overwrite `current_transcript`, set
`last_speech_time := now`, `is_speaking := True` and send
`transcription_update`; every other outcome is a silence tick. -/
def transcriptionCycle (c : Collab) (s : DetState) (now : ℤ) (stt : SttOutcome) :
    DetState × List Action :=
  match stt with
  | .completed (some t) =>
      if t ≠ "" ∧ pyStrip t ≠ "" then
        ({ s with current_transcript := t, last_speech_time := some now,
                  is_speaking := true },
         [.send (.transcriptionUpdate t)])
      else silenceTick c s now
  | .completed none => silenceTick c s now
  | .failedStatus => silenceTick c s now
  | .exn => silenceTick c s now

/-- One inbound item on the turn-detection WebSocket: a `start`/`stop`/`ping`
control message, an accepted audio fragment carrying the wall-clock time of
its arrival and the STT outcome its cycle would produce, or a text frame
failing the base64 heuristic (skipped by `continue`). -/
inductive Event where
  | start (now : ℤ)
  | stop
  | ping
  | audio (now : ℤ) (frag : List Nat) (stt : SttOutcome)
  | skipped
deriving DecidableEq, Repr

/-- Processing of one inbound message by the `while True` receive loop of
`websocket_turn_detection` (`app_refactored.py`, lines 1327-1455):
`start` resets all turn state (history lives in the global `chat_manager` and
is untouched); `stop` calls `send_turn_end_notification` and then sends a
status; `ping` answers `pong`; an accepted fragment is appended to both
buffers and — when `transcription_buffer` is non-empty and at least
`transcription_interval` has elapsed since `last_transcription_time` — a
transcription cycle runs inline, after which the buffer is cleared and
`last_transcription_time` set to `current_time`; finally `chunk_received` is
acknowledged. -/
def step (c : Collab) (s : DetState) : Event → DetState × List Action
  | .start now =>
      ({ current_transcript := "", last_speech_time := none, is_speaking := false,
         audio_chunks := [], transcription_buffer := [],
         last_transcription_time := now, history := s.history },
       [.send (.status "Turn detection started")])
  | .stop =>
      let r := sendTurnEndNotification c s
      (r.1, r.2 ++ [.send (.status "Turn detection stopped")])
  | .ping => (s, [.send .pong])
  | .skipped => (s, [])
  | .audio now frag stt =>
      let s1 := { s with audio_chunks := s.audio_chunks ++ [frag],
                         transcription_buffer := s.transcription_buffer ++ [frag] }
      if s1.transcription_buffer ≠ [] ∧
          now - s1.last_transcription_time ≥ transcription_interval then
        let r := transcriptionCycle c s1 now stt
        ({ r.1 with transcription_buffer := [], last_transcription_time := now },
         Action.sttCall :: r.2 ++ [.send (.chunkReceived frag.length)])
      else
        (s1, [.send (.chunkReceived frag.length)])

/-- Run of the receive loop over a list of inbound events. -/
def run (c : Collab) (s : DetState) : List Event → DetState × List Action
  | [] => (s, [])
  | e :: es =>
      let r := step c s e
      let r2 := run c r.1 es
      (r2.1, r.2 ++ r2.2)

/-- Initial state of a fresh connection (`app_refactored.py`, lines
1179-1186): empty transcript and buffers, `last_speech_time = None`,
`is_speaking = False`, `last_transcription_time = 0`, fresh session history. -/
def initState : DetState :=
  { current_transcript := "", last_speech_time := none, is_speaking := false,
    audio_chunks := [], transcription_buffer := [],
    last_transcription_time := 0, history := [] }

/-- A whole session: the receive loop over `evs`, followed by the `finally`
block (line 1468), which calls `send_turn_end_notification` once more on
connection close or error. -/
def sessionTrace (c : Collab) (evs : List Event) : List Action :=
  (run c initState evs).2 ++ (sendTurnEndNotification c (run c initState evs).1).2

/-- `generate_early_tts` from the `websocket_audio` endpoint
(`app_refactored.py`, lines 940-955): take the text up to the first `'.'`
(`accumulated_response.split('.')[0] + '.'`), and if it is longer than 10
characters, call `generate_fast_base64_audio` and send `early_audio_chunk`
only on success. -/
def generate_early_tts (murfConfigured : Bool) (http : HttpEnv)
    (accumulated_response : String) : List Msg :=
  let first_sentence := (accumulated_response.takeWhile (fun ch => ch ≠ '.')).push '.'
  if first_sentence.length > 10 then
    let r := generate_fast_base64_audio murfConfigured http first_sentence
    if r.1.1 then [.earlyAudioChunk r.1.2.1 first_sentence] else []
  else []

/-- The full response accumulated over the LLM streaming loop of a fired turn
(`accumulated_response` in `send_turn_end_notification`) when the Gemini key
is configured. -/
def turnR (c : Collab) (T : String) : String :=
  String.join (generate_streaming_response true c.llm T)

/-- This session's history after the user and assistant appends of a fired
turn (steps 1 and 4 of the pipeline). -/
def turnHist (c : Collab) (h : List ChatMessage) (T : String) : List ChatMessage :=
  add_message (add_message h .user T) .assistant (turnR c T)

/-- `message_count` as sent in the terminal `llm_stream_chunk`: the history
length after both appends. -/
def turnMc (c : Collab) (h : List ChatMessage) (T : String) : Nat :=
  (turnHist c h T).length

/-- The action trace of a fired turn with the Gemini key configured
(shown equal to `(sendTurnEndNotification c s).2` in
`sendTurnEnd_fired_gemini` below). -/
def turnTrace (c : Collab) (h : List ChatMessage) (T : String) : List Action :=
  [.send (.turnEnd T), .histAppend .user T, .llmCall T]
  ++ llmChunkActs (generate_streaming_response true c.llm T)
  ++ [.histAppend .assistant (turnR c T),
      .send (.llmStreamChunk "" true (some (turnR c T)) (some (turnMc c h T))),
      .ttsCall (turnR c T) 512]
  ++ ttsStageActs (c.tts (turnR c T) 512) T (turnR c T) (turnMc c h T)

/-! ### Trace predicates -/

/-- Is this action the sending of a `turn_end` message? -/
def isTurnEnd : Action → Bool
  | .send (.turnEnd _) => true
  | _ => false

/-- Is this action the sending of a `murf_base64_audio_chunk` message? -/
def isMurfChunk : Action → Bool
  | .send (.murfBase64AudioChunk _ _ _ _ _) => true
  | _ => false

/-- Is this action the sending of a `pipeline_error` message? -/
def isPipelineError : Action → Bool
  | .send (.pipelineError _) => true
  | _ => false

/-- Is this action the sending of an `audio_fallback` message? -/
def isAudioFallback : Action → Bool
  | .send (.audioFallback _ _) => true
  | _ => false

/-- Is this action the sending of an `early_audio_chunk` message? -/
def isEarlyAudio : Action → Bool
  | .send (.earlyAudioChunk _ _) => true
  | _ => false

/-- Is this action the terminal `llm_stream_chunk` with `is_complete=True`? -/
def isTerminalLlmChunk : Action → Bool
  | .send (.llmStreamChunk _ true _ _) => true
  | _ => false

/-- Is this action an append of an assistant message to the history? -/
def isAssistantAppend : Action → Bool
  | .histAppend .assistant _ => true
  | _ => false

/-- Is this action an invocation of the full-response TTS stage? -/
def isTtsCall : Action → Bool
  | .ttsCall _ _ => true
  | _ => false

/-- Is this action an invocation of the LLM streaming generator? -/
def isLlmCall : Action → Bool
  | .llmCall _ => true
  | _ => false

/-- Number of actions in the trace satisfying `p`. -/
def countP (p : Action → Bool) (l : List Action) : Nat := (l.filter p).length

/-- Does this STT outcome count as an observed non-empty transcription?
(`transcript.status == completed and transcript.text and
transcript.text.strip()`). -/
def sttIsSpeech : SttOutcome → Bool
  | .completed (some t) => decide (t ≠ "" ∧ pyStrip t ≠ "")
  | _ => false

/-- Does this inbound event carry a speech transcription outcome? -/
def eventIsSpeech : Event → Bool
  | .audio _ _ stt => sttIsSpeech stt
  | _ => false

/-! ### Helper lemmas -/

theorem takeLast_length_le (n : Nat) (l : List α) : (takeLast n l).length ≤ n := by
  simp only [takeLast, List.length_drop]
  omega

theorem takeLast_of_length_le {n : Nat} {l : List α} (h : l.length ≤ n) :
    takeLast n l = l := by
  simp only [takeLast]
  rw [Nat.sub_eq_zero_of_le h, List.drop_zero]

theorem add_message_eq_takeLast (h : List ChatMessage)
    (role : MessageRole) (content : String) :
    add_message h role content = takeLast MAX_CHAT_HISTORY (h ++ [⟨role, content⟩]) := by
  unfold add_message
  by_cases hgt : (h ++ [(⟨role, content⟩ : ChatMessage)]).length > MAX_CHAT_HISTORY
  · rw [if_pos hgt]
  · rw [if_neg hgt]
    rw [takeLast_of_length_le (by omega)]

theorem takeLast_append_singleton (n : Nat) (l : List α) (x : α) :
    takeLast n (takeLast n l ++ [x]) = takeLast n (l ++ [x]) := by
  by_cases hle : l.length ≤ n
  · rw [takeLast_of_length_le hle]
  · push_neg at hle
    simp only [takeLast, List.length_append, List.length_drop, List.length_cons,
      List.length_nil]
    rcases Nat.eq_zero_or_pos n with hn | hn
    · subst hn
      simp only [Nat.sub_zero]
      rw [List.drop_of_length_le (by simp), List.drop_of_length_le (by simp [Nat.le_succ])]
    · have h1 : l.length - (l.length - n) = n := by omega
      rw [h1]
      have h2 : n + 1 - n = 1 := by omega
      have h3 : l.length + 1 - n = (l.length - n) + 1 := by omega
      rw [h2, h3]
      rw [List.drop_append_of_le_length (by simp only [List.length_drop]; omega),
        List.drop_append_of_le_length (by omega)]
      rw [List.drop_drop]

theorem foldl_add_message_eq (msgs : List ChatMessage) :
    msgs.foldl (fun h m => add_message h m.role m.content) [] =
      takeLast MAX_CHAT_HISTORY msgs := by
  induction msgs using List.reverseRecOn with
  | nil => rfl
  | append_singleton l x ih =>
      rw [List.foldl_append, List.foldl_cons, List.foldl_nil, ih,
        add_message_eq_takeLast]
      exact takeLast_append_singleton _ _ x

theorem streaming_tts_never_succeeds (http : HttpEnv) (t : String) (k : Nat) :
    (generate_streaming_base64_audio true http t k).1.1 = false := by
  unfold generate_streaming_base64_audio streamingTryBody
  by_cases h : pyStrip t = "" <;> simp [h, lookupName, streamingAudioLocals, ttsModuleGlobals]

theorem streaming_tts_failure (http : HttpEnv) (t : String) (k : Nat)
    (ht : pyStrip t ≠ "") :
    generate_streaming_base64_audio true http t k = ((false, [], some .TTS_ERROR), 0) := by
  unfold generate_streaming_base64_audio streamingTryBody
  simp [ht, lookupName, streamingAudioLocals, ttsModuleGlobals, excToStreamError]

theorem fast_tts_never_succeeds (http : HttpEnv) (t : String) :
    (generate_fast_base64_audio true http t).1.1 = false := by
  unfold generate_fast_base64_audio fastTryBody
  by_cases h : pyStrip t = "" <;> simp [h, lookupName, fastAudioLocals, ttsModuleGlobals]

theorem fast_tts_failure (http : HttpEnv) (t : String) (ht : pyStrip t ≠ "") :
    generate_fast_base64_audio true http t = ((false, "", some .TTS_ERROR), 0) := by
  unfold generate_fast_base64_audio fastTryBody
  simp [ht, lookupName, fastAudioLocals, ttsModuleGlobals, excToFastError]

theorem filter_map_const_false {β : Type} (f : β → Action) (p : Action → Bool)
    (h : ∀ b, p (f b) = false) (l : List β) : (l.map f).filter p = [] := by
  induction l with
  | nil => rfl
  | cons a t ih => simp [List.filter_cons, h, ih]

theorem filter_map_const_true {β : Type} (f : β → Action) (p : Action → Bool)
    (h : ∀ b, p (f b) = true) (l : List β) : (l.map f).filter p = l.map f := by
  induction l with
  | nil => rfl
  | cons a t ih => simp [List.filter_cons, h, ih]

theorem filter_llmChunkActs (p : Action → Bool)
    (h : ∀ ch, p (Action.send (.llmStreamChunk ch false none none)) = false)
    (chunks : List String) : (llmChunkActs chunks).filter p = [] :=
  filter_map_const_false _ p h chunks

theorem sendTurnEnd_guard_false (c : Collab) (s : DetState)
    (h : ¬(s.is_speaking = true ∧ pyStrip s.current_transcript ≠ "")) :
    sendTurnEndNotification c s = (s, []) := by
  unfold sendTurnEndNotification
  rw [if_neg h]

theorem sendTurnEnd_fired_state (c : Collab) (s : DetState)
    (hsp : s.is_speaking = true) (htr : pyStrip s.current_transcript ≠ "") :
    (sendTurnEndNotification c s).1.current_transcript = ""
    ∧ (sendTurnEndNotification c s).1.is_speaking = false
    ∧ (sendTurnEndNotification c s).1.last_speech_time = s.last_speech_time
    ∧ (sendTurnEndNotification c s).1.transcription_buffer = s.transcription_buffer
    ∧ (sendTurnEndNotification c s).1.last_transcription_time = s.last_transcription_time
    ∧ (sendTurnEndNotification c s).1.audio_chunks = s.audio_chunks := by
  unfold sendTurnEndNotification
  rw [if_pos ⟨hsp, htr⟩]
  by_cases hg : c.geminiConfigured <;> simp [hg]

theorem sendTurnEnd_fired_gemini (c : Collab) (s : DetState)
    (hsp : s.is_speaking = true) (htr : pyStrip s.current_transcript ≠ "")
    (hg : c.geminiConfigured = true) :
    sendTurnEndNotification c s =
      ({ s with current_transcript := "", is_speaking := false,
                history := turnHist c s.history s.current_transcript },
       turnTrace c s.history s.current_transcript) := by
  unfold sendTurnEndNotification
  rw [if_pos ⟨hsp, htr⟩]
  simp only [hg, if_true]
  rfl

theorem ttsStage_fallback {tr : Bool × List String × Option ErrorType}
    (h1 : tr.1 = false) (T R : String) (mc : Nat) :
    ttsStageActs tr T R mc =
      [Action.send (.audioFallback tr.2.2 (fallbackTexts (tr.2.2.getD .TTS_ERROR)))] := by
  unfold ttsStageActs
  rw [h1]
  rfl

theorem filter_murfChunkActs (p : Action → Bool)
    (hm : ∀ ch i n R, p (Action.send (.murfBase64AudioChunk ch i n false R)) = false)
    (hmt : ∀ n R, p (Action.send (.murfBase64AudioChunk "" n n true R)) = false)
    (bchunks : List String) (R : String) :
    (murfChunkActs bchunks R).filter p = [] := by
  unfold murfChunkActs
  rw [List.filter_append]
  rw [filter_map_const_false
    (fun q : Nat × String =>
      Action.send (.murfBase64AudioChunk q.2 q.1 bchunks.length false R))
    p (fun q => hm q.2 q.1 bchunks.length R) bchunks.enum]
  simp [List.filter_cons, hmt]

theorem filter_ttsStageActs (p : Action → Bool)
    (hm : ∀ ch i n R, p (Action.send (.murfBase64AudioChunk ch i n false R)) = false)
    (hmt : ∀ n R, p (Action.send (.murfBase64AudioChunk "" n n true R)) = false)
    (hc : ∀ T R mc, p (Action.send (.conversationComplete T R mc)) = false)
    (hf : ∀ et fb, p (Action.send (.audioFallback et fb)) = false)
    (tr : Bool × List String × Option ErrorType) (T R : String) (mc : Nat) :
    (ttsStageActs tr T R mc).filter p = [] := by
  unfold ttsStageActs
  by_cases h1 : tr.1
  · simp only [h1, if_true, List.filter_append]
    rw [filter_murfChunkActs p hm hmt]
    simp [List.filter_cons, hc]
  · simp [h1, List.filter_cons, hf]

theorem sendTurnEnd_filter_turnEnd (c : Collab) (s : DetState) :
    (sendTurnEndNotification c s).2.filter isTurnEnd =
      if s.is_speaking = true ∧ pyStrip s.current_transcript ≠ "" then
        [Action.send (.turnEnd s.current_transcript)]
      else [] := by
  by_cases h : s.is_speaking = true ∧ pyStrip s.current_transcript ≠ ""
  · rw [if_pos h]
    unfold sendTurnEndNotification
    rw [if_pos h]
    by_cases hg : c.geminiConfigured
    · simp only [hg, if_true, List.filter_append]
      rw [filter_llmChunkActs isTurnEnd (fun ch => rfl),
        filter_ttsStageActs isTurnEnd (fun _ _ _ _ => rfl) (fun _ _ => rfl)
          (fun _ _ _ => rfl) (fun _ _ => rfl)]
      simp [List.filter_cons, isTurnEnd]
    · simp only [hg, if_false, Bool.false_eq_true]
      simp [List.filter_cons, isTurnEnd]
  · rw [if_neg h, sendTurnEnd_guard_false c s h]
    rfl

theorem transcriptionCycle_silence (c : Collab) (s : DetState) (now : ℤ)
    (stt : SttOutcome) (hsil : sttIsSpeech stt = false) :
    transcriptionCycle c s now stt = silenceTick c s now := by
  cases stt with
  | completed text =>
      cases text with
      | none => rfl
      | some t =>
          simp only [transcriptionCycle]
          rw [if_neg (of_decide_eq_false hsil)]
  | failedStatus => rfl
  | exn => rfl

theorem silenceTick_speaking (c : Collab) (s : DetState) (now : ℤ)
    (hsp : s.is_speaking = true) :
    silenceTick c s now = checkTurnTimeout c s now := by
  unfold silenceTick
  rw [if_pos hsp]

theorem silenceTick_waiting (c : Collab) (s : DetState) (now : ℤ)
    (hsp : s.is_speaking = false) :
    silenceTick c s now = (s, []) := by
  unfold silenceTick
  rw [if_neg (by rw [hsp]; exact Bool.false_ne_true)]

theorem checkTurnTimeout_fires (c : Collab) (s : DetState) (now t : ℤ)
    (hsp : s.is_speaking = true) (hls : s.last_speech_time = some t)
    (hcond : t ≠ 0 ∧ now - t > turn_timeout) :
    checkTurnTimeout c s now = sendTurnEndNotification c s := by
  unfold checkTurnTimeout
  rw [if_pos hsp, hls]
  exact if_pos hcond

theorem checkTurnTimeout_no_fire (c : Collab) (s : DetState) (now t : ℤ)
    (hls : s.last_speech_time = some t)
    (hcond : ¬(t ≠ 0 ∧ now - t > turn_timeout)) :
    checkTurnTimeout c s now = (s, []) := by
  unfold checkTurnTimeout
  by_cases hsp : s.is_speaking = true
  · rw [if_pos hsp, hls]
    exact if_neg hcond
  · rw [if_neg hsp]

theorem step_audio_cycle (c : Collab) (s : DetState) (now : ℤ) (frag : List Nat)
    (stt : SttOutcome)
    (hgate : now - s.last_transcription_time ≥ transcription_interval) :
    step c s (.audio now frag stt)
      = ({ (transcriptionCycle c
              { s with audio_chunks := s.audio_chunks ++ [frag],
                       transcription_buffer := s.transcription_buffer ++ [frag] }
              now stt).1 with
            transcription_buffer := [], last_transcription_time := now },
         Action.sttCall ::
           ((transcriptionCycle c
              { s with audio_chunks := s.audio_chunks ++ [frag],
                       transcription_buffer := s.transcription_buffer ++ [frag] }
              now stt).2
            ++ [Action.send (.chunkReceived frag.length)])) := by
  simp only [step]
  rw [if_pos ⟨by simp, hgate⟩]
  rfl

theorem step_audio_no_cycle (c : Collab) (s : DetState) (now : ℤ) (frag : List Nat)
    (stt : SttOutcome)
    (hgate : ¬(now - s.last_transcription_time ≥ transcription_interval)) :
    step c s (.audio now frag stt)
      = ({ s with audio_chunks := s.audio_chunks ++ [frag],
                  transcription_buffer := s.transcription_buffer ++ [frag] },
         [Action.send (.chunkReceived frag.length)]) := by
  simp only [step]
  rw [if_neg (fun hc => hgate hc.2)]

theorem checkTurnTimeout_turnEnd_cases (c : Collab) (s : DetState) (now : ℤ) :
    ((checkTurnTimeout c s now).2.filter isTurnEnd = [])
    ∨ ((checkTurnTimeout c s now).2.filter isTurnEnd
          = [Action.send (.turnEnd s.current_transcript)]
       ∧ pyStrip s.current_transcript ≠ ""
       ∧ (checkTurnTimeout c s now).1.is_speaking = false) := by
  by_cases hsp : s.is_speaking = true
  · cases hls : s.last_speech_time with
    | none =>
        left
        unfold checkTurnTimeout
        rw [if_pos hsp, hls]
        rfl
    | some t =>
        by_cases hcond : t ≠ 0 ∧ now - t > turn_timeout
        · have heq := checkTurnTimeout_fires c s now t hsp hls hcond
          by_cases hguard : s.is_speaking = true ∧ pyStrip s.current_transcript ≠ ""
          · right
            have hf := sendTurnEnd_filter_turnEnd c s
            rw [if_pos hguard] at hf
            rw [heq]
            exact ⟨hf, hguard.2, (sendTurnEnd_fired_state c s hguard.1 hguard.2).2.1⟩
          · left
            rw [heq, sendTurnEnd_guard_false c s hguard]
            rfl
        · left
          rw [checkTurnTimeout_no_fire c s now t hls hcond]
          rfl
  · left
    unfold checkTurnTimeout
    rw [if_neg hsp]
    rfl

theorem silenceTick_turnEnd_cases (c : Collab) (s : DetState) (now : ℤ) :
    ((silenceTick c s now).2.filter isTurnEnd = [])
    ∨ ((silenceTick c s now).2.filter isTurnEnd
          = [Action.send (.turnEnd s.current_transcript)]
       ∧ pyStrip s.current_transcript ≠ ""
       ∧ (silenceTick c s now).1.is_speaking = false) := by
  by_cases hsp : s.is_speaking = true
  · rw [silenceTick_speaking c s now hsp]
    exact checkTurnTimeout_turnEnd_cases c s now
  · left
    unfold silenceTick
    rw [if_neg hsp]
    rfl

theorem transcriptionCycle_turnEnd_cases (c : Collab) (s : DetState) (now : ℤ)
    (stt : SttOutcome) :
    ((transcriptionCycle c s now stt).2.filter isTurnEnd = [])
    ∨ ((transcriptionCycle c s now stt).2.filter isTurnEnd
          = [Action.send (.turnEnd s.current_transcript)]
       ∧ pyStrip s.current_transcript ≠ ""
       ∧ (transcriptionCycle c s now stt).1.is_speaking = false) := by
  cases stt with
  | completed text =>
      cases text with
      | none => exact silenceTick_turnEnd_cases c s now
      | some t =>
          by_cases hcond : t ≠ "" ∧ pyStrip t ≠ ""
          · left
            simp only [transcriptionCycle]
            rw [if_pos hcond]
            rfl
          · have heq : transcriptionCycle c s now (.completed (some t)) = silenceTick c s now := by
              simp only [transcriptionCycle]
              rw [if_neg hcond]
            rw [heq]
            exact silenceTick_turnEnd_cases c s now
  | failedStatus => exact silenceTick_turnEnd_cases c s now
  | exn => exact silenceTick_turnEnd_cases c s now

theorem step_turnEnd_cases (c : Collab) (s : DetState) (e : Event) :
    ((step c s e).2.filter isTurnEnd = [])
    ∨ ((step c s e).2.filter isTurnEnd = [Action.send (.turnEnd s.current_transcript)]
       ∧ pyStrip s.current_transcript ≠ ""
       ∧ (step c s e).1.is_speaking = false) := by
  cases e with
  | start now => left; rfl
  | ping => left; rfl
  | skipped => left; rfl
  | stop =>
      by_cases hguard : s.is_speaking = true ∧ pyStrip s.current_transcript ≠ ""
      · right
        have hf := sendTurnEnd_filter_turnEnd c s
        rw [if_pos hguard] at hf
        refine ⟨?_, hguard.2, (sendTurnEnd_fired_state c s hguard.1 hguard.2).2.1⟩
        show ((sendTurnEndNotification c s).2
            ++ [Action.send (.status "Turn detection stopped")]).filter isTurnEnd = _
        rw [List.filter_append, hf]
        rfl
      · left
        show ((sendTurnEndNotification c s).2
            ++ [Action.send (.status "Turn detection stopped")]).filter isTurnEnd = []
        rw [sendTurnEnd_guard_false c s hguard]
        rfl
  | audio now frag stt =>
      by_cases hgate : now - s.last_transcription_time ≥ transcription_interval
      · rw [step_audio_cycle c s now frag stt hgate]
        rcases transcriptionCycle_turnEnd_cases c
            { s with audio_chunks := s.audio_chunks ++ [frag],
                     transcription_buffer := s.transcription_buffer ++ [frag] }
            now stt with h | h
        · left
          simp only [List.filter_cons, List.filter_append, h]
          rfl
        · right
          refine ⟨?_, h.2.1, h.2.2⟩
          simp only [List.filter_cons, List.filter_append, h.1]
          rfl
      · left
        rw [step_audio_no_cycle c s now frag stt hgate]
        rfl

theorem step_no_speech (c : Collab) (s : DetState) (e : Event)
    (hns : eventIsSpeech e = false) (hsp : s.is_speaking = false) :
    (step c s e).1.is_speaking = false ∧ (step c s e).2.filter isTurnEnd = [] := by
  cases e with
  | start now => exact ⟨rfl, rfl⟩
  | ping => exact ⟨hsp, rfl⟩
  | skipped => exact ⟨hsp, rfl⟩
  | stop =>
      have hg : ¬(s.is_speaking = true ∧ pyStrip s.current_transcript ≠ "") :=
        fun hc => Bool.false_ne_true (hsp.symm.trans hc.1)
      constructor
      · show (sendTurnEndNotification c s).1.is_speaking = false
        rw [sendTurnEnd_guard_false c s hg]
        exact hsp
      · show ((sendTurnEndNotification c s).2
            ++ [Action.send (.status "Turn detection stopped")]).filter isTurnEnd = []
        rw [sendTurnEnd_guard_false c s hg]
        rfl
  | audio now frag stt =>
      by_cases hgate : now - s.last_transcription_time ≥ transcription_interval
      · rw [step_audio_cycle c s now frag stt hgate]
        have hcyc : transcriptionCycle c
            { s with audio_chunks := s.audio_chunks ++ [frag],
                     transcription_buffer := s.transcription_buffer ++ [frag] }
            now stt
          = silenceTick c
              { s with audio_chunks := s.audio_chunks ++ [frag],
                       transcription_buffer := s.transcription_buffer ++ [frag] }
              now :=
          transcriptionCycle_silence c _ now stt hns
        have hsil : silenceTick c
            { s with audio_chunks := s.audio_chunks ++ [frag],
                     transcription_buffer := s.transcription_buffer ++ [frag] }
            now
          = ({ s with audio_chunks := s.audio_chunks ++ [frag],
                      transcription_buffer := s.transcription_buffer ++ [frag] }, []) :=
          silenceTick_waiting c _ now hsp
        rw [hcyc, hsil]
        exact ⟨hsp, rfl⟩
      · rw [step_audio_no_cycle c s now frag stt hgate]
        exact ⟨hsp, rfl⟩

theorem run_no_speech (c : Collab) (evs : List Event) :
    ∀ s : DetState, (∀ e ∈ evs, eventIsSpeech e = false) → s.is_speaking = false →
    (run c s evs).1.is_speaking = false ∧ (run c s evs).2.filter isTurnEnd = [] := by
  induction evs with
  | nil => exact fun s _ hsp => ⟨hsp, rfl⟩
  | cons e es ih =>
      intro s hns hsp
      have h1 := step_no_speech c s e (hns e (List.mem_cons_self e es)) hsp
      have h2 := ih (step c s e).1 (fun e' he' => hns e' (List.mem_cons_of_mem e he')) h1.1
      constructor
      · exact h2.1
      · show ((step c s e).2 ++ (run c (step c s e).1 es).2).filter isTurnEnd = []
        rw [List.filter_append, h1.2, h2.2]
        rfl

theorem step_speech_no_turnEnd (c : Collab) (s : DetState) (e : Event)
    (hspe : eventIsSpeech e = true) :
    (step c s e).2.filter isTurnEnd = [] := by
  cases e with
  | start now => rfl
  | ping => exact absurd hspe (by simp [eventIsSpeech])
  | skipped => exact absurd hspe (by simp [eventIsSpeech])
  | stop => exact absurd hspe (by simp [eventIsSpeech])
  | audio now frag stt =>
      by_cases hgate : now - s.last_transcription_time ≥ transcription_interval
      · rw [step_audio_cycle c s now frag stt hgate]
        cases stt with
        | completed text =>
            cases text with
            | none => exact absurd hspe (by simp [eventIsSpeech, sttIsSpeech])
            | some t =>
                have hcond : t ≠ "" ∧ pyStrip t ≠ "" := of_decide_eq_true hspe
                have heq : transcriptionCycle c
                    { s with audio_chunks := s.audio_chunks ++ [frag],
                             transcription_buffer := s.transcription_buffer ++ [frag] }
                    now (.completed (some t))
                  = ({ s with current_transcript := t, last_speech_time := some now,
                              is_speaking := true,
                              audio_chunks := s.audio_chunks ++ [frag],
                              transcription_buffer := s.transcription_buffer ++ [frag] },
                     [Action.send (.transcriptionUpdate t)]) := by
                  simp only [transcriptionCycle]
                  rw [if_pos hcond]
                rw [heq]
                rfl
        | failedStatus => exact absurd hspe (by simp [eventIsSpeech, sttIsSpeech])
        | exn => exact absurd hspe (by simp [eventIsSpeech, sttIsSpeech])
      · rw [step_audio_no_cycle c s now frag stt hgate]
        rfl

theorem step_turnEnd_mem (c : Collab) (s : DetState) (e : Event) (tr : String)
    (h : Action.send (.turnEnd tr) ∈ (step c s e).2) : pyStrip tr ≠ "" := by
  have hmem : Action.send (.turnEnd tr) ∈ (step c s e).2.filter isTurnEnd :=
    List.mem_filter.mpr ⟨h, rfl⟩
  rcases step_turnEnd_cases c s e with hc | hc
  · rw [hc] at hmem
    exact absurd hmem (List.not_mem_nil _)
  · rw [hc.1] at hmem
    have heq := List.mem_singleton.mp hmem
    have htr : tr = s.current_transcript := by
      injection heq with h1
      injection h1
    rw [htr]
    exact hc.2.1

theorem sendTurnEnd_turnEnd_mem (c : Collab) (s : DetState) (tr : String)
    (h : Action.send (.turnEnd tr) ∈ (sendTurnEndNotification c s).2) :
    pyStrip tr ≠ "" := by
  have hmem : Action.send (.turnEnd tr) ∈ (sendTurnEndNotification c s).2.filter isTurnEnd :=
    List.mem_filter.mpr ⟨h, rfl⟩
  have hf := sendTurnEnd_filter_turnEnd c s
  by_cases hguard : s.is_speaking = true ∧ pyStrip s.current_transcript ≠ ""
  · rw [if_pos hguard] at hf
    rw [hf] at hmem
    have heq := List.mem_singleton.mp hmem
    have htr : tr = s.current_transcript := by
      injection heq with h1
      injection h1
    rw [htr]
    exact hguard.2
  · rw [if_neg hguard] at hf
    rw [hf] at hmem
    exact absurd hmem (List.not_mem_nil _)

theorem run_turnEnd_mem (c : Collab) (evs : List Event) :
    ∀ (s : DetState) (tr : String),
    Action.send (.turnEnd tr) ∈ (run c s evs).2 → pyStrip tr ≠ "" := by
  induction evs with
  | nil =>
      intro s tr h
      exact absurd h (List.not_mem_nil _)
  | cons e es ih =>
      intro s tr h
      have h' : Action.send (.turnEnd tr)
          ∈ (step c s e).2 ++ (run c (step c s e).1 es).2 := h
      rcases List.mem_append.mp h' with h1 | h2
      · exact step_turnEnd_mem c s e tr h1
      · exact ih (step c s e).1 tr h2

/-! ### Shared concrete inputs for witnesses and counterexamples -/

/-- A transport oracle (never actually consulted by the failing TTS paths). -/
def exHttp : HttpEnv := ⟨200, "u", 200, [1, 2, 3]⟩

/-- A detector state in which speech has been observed: `SPEAKING` with a
non-empty transcript, as after one successful transcription at t = 1 s. -/
def exState : DetState :=
  { current_transcript := "turn on the lights", last_speech_time := some 1000,
    is_speaking := true, audio_chunks := [[1]], transcription_buffer := [],
    last_transcription_time := 1000, history := [] }

/-- The real TTS callable of `tts_service.py` with the Murf key configured,
over the `exHttp` transport. -/
def exRealTts : String → Nat → Bool × List String × Option ErrorType :=
  fun t k => (generate_streaming_base64_audio true exHttp t k).1

/-- A collaborator with the Gemini key unconfigured (the turn pipeline then
only reports `pipeline_error` after `turn_end`). -/
def exCollabNoGemini : Collab := ⟨false, .yields [], fun _ _ => (false, [], none)⟩

/-- A fresh waiting state (as right after `start`): nothing spoken yet. -/
def exWaiting : DetState :=
  { current_transcript := "", last_speech_time := none, is_speaking := false,
    audio_chunks := [], transcription_buffer := [], last_transcription_time := 0,
    history := [] }

/-- A state whose transcript is whitespace-only while `is_speaking` holds. -/
def exBlankTranscript : DetState :=
  { current_transcript := "  ", last_speech_time := some 1000, is_speaking := true,
    audio_chunks := [], transcription_buffer := [], last_transcription_time := 1000,
    history := [] }

/-- The real TTS callable succeeding with two base64 chunks (the collaborator
contract of spec section 6, for claims conditioned on TTS success). -/
def exOkTts : String → Nat → Bool × List String × Option ErrorType :=
  fun _ _ => (true, ["QUJD", "REVG"], none)

/-- Gemini configured, stream yields two chunks, TTS is the real failing
service. -/
def exCollabLlmOk : Collab := ⟨true, .yields ["Hello ", "there"], exRealTts⟩

/-- Gemini configured, the underlying stream raises after yielding nothing. -/
def exCollabLlmRaises : Collab := ⟨true, .raises [] "Stream failed", exRealTts⟩

/-- Gemini configured, stream yields, TTS succeeds with two chunks. -/
def exCollabTtsOk : Collab := ⟨true, .yields ["Hello there"], exOkTts⟩

/-- A silence-only inbound sequence: whitespace-only and failed transcription
cycles, a stop, and (implicitly) teardown. -/
def exEvsSilence : List Event :=
  [.start 0, .audio 1000 [7] (.completed (some "  ")),
   .audio 2000 [7] .failedStatus, .stop]

/-- One fragment transcribed as actual speech. -/
def exPreSpeech : List Event :=
  [.audio 1000 [7] (.completed (some "turn on the lights"))]

/-- Speech followed by an explicit stop (which flushes the turn). -/
def exEvsSpeech : List Event :=
  [.audio 1000 [7] (.completed (some "turn on the lights")), .stop]

/-- A silence-only stretch between two would-be turn ends. -/
def exMidSilence : List Event := [.audio 2000 [7] (.completed none)]

/-! ### Claims -/

/-- C7: for every sequence of `add_message` calls on a fresh session, the
stored history never exceeds `Config.MAX_CHAT_HISTORY` (50) entries, and it
always equals the suffix of the most recently added messages, in insertion
order (oldest evicted first). -/
theorem C7_history_bounded (msgs : List ChatMessage) :
    (msgs.foldl (fun h m => add_message h m.role m.content) []).length ≤ MAX_CHAT_HISTORY
    ∧ msgs.foldl (fun h m => add_message h m.role m.content) []
        = takeLast MAX_CHAT_HISTORY msgs := by
  refine ⟨?_, foldl_add_message_eq msgs⟩
  rw [foldl_add_message_eq]
  exact takeLast_length_le _ _

/-- C2: with the Murf key configured and input text non-empty after stripping,
`generate_streaming_base64_audio` returns `(False, [], TTS_ERROR)` and
`generate_fast_base64_audio` returns `(False, "", TTS_ERROR)`, in both cases
issuing zero HTTP requests: building the `headers` dict reads the name
`current_api_key`, which is bound only inside `generate_speech`, so a
`NameError` is raised and converted by the trailing generic `except`.
Consequently `generate_early_tts` never sends an `early_audio_chunk`, and a
turn pipeline wired to the real TTS service delivers no
`murf_base64_audio_chunk` (and no `early_audio_chunk`) message. -/
theorem C2_tts_name_error (text : String) (http : HttpEnv) (n : Nat) (resp : String)
    (c : Collab) (s : DetState)
    (htext : pyStrip text ≠ "")
    (htts : c.tts = fun t k => (generate_streaming_base64_audio true http t k).1) :
    generate_streaming_base64_audio true http text n = ((false, [], some .TTS_ERROR), 0)
    ∧ generate_fast_base64_audio true http text = ((false, "", some .TTS_ERROR), 0)
    ∧ generate_early_tts true http resp = []
    ∧ (sendTurnEndNotification c s).2.filter isMurfChunk = []
    ∧ (sendTurnEndNotification c s).2.filter isEarlyAudio = [] := by
  refine ⟨streaming_tts_failure http text n htext, fast_tts_failure http text htext,
    ?_, ?_, ?_⟩
  · simp [generate_early_tts, fast_tts_never_succeeds]
  · by_cases h : s.is_speaking = true ∧ pyStrip s.current_transcript ≠ ""
    · unfold sendTurnEndNotification
      rw [if_pos h]
      by_cases hg : c.geminiConfigured
      · simp only [hg, if_true, List.filter_append]
        rw [filter_llmChunkActs isMurfChunk (fun ch => rfl)]
        have htr1 : (c.tts (String.join
            (generate_streaming_response true c.llm s.current_transcript))
            512).1 = false := by
          rw [htts]
          exact streaming_tts_never_succeeds http _ 512
        rw [ttsStage_fallback htr1]
        simp [List.filter_cons, isMurfChunk]
      · simp only [hg, if_false, Bool.false_eq_true]
        simp [List.filter_cons, isMurfChunk]
    · rw [sendTurnEnd_guard_false c s h]
      rfl
  · by_cases h : s.is_speaking = true ∧ pyStrip s.current_transcript ≠ ""
    · unfold sendTurnEndNotification
      rw [if_pos h]
      by_cases hg : c.geminiConfigured
      · simp only [hg, if_true, List.filter_append]
        rw [filter_llmChunkActs isEarlyAudio (fun ch => rfl),
          filter_ttsStageActs isEarlyAudio (fun _ _ _ _ => rfl) (fun _ _ => rfl)
            (fun _ _ _ => rfl) (fun _ _ => rfl)]
        simp [List.filter_cons, isEarlyAudio]
      · simp only [hg, if_false, Bool.false_eq_true]
        simp [List.filter_cons, isEarlyAudio]
    · rw [sendTurnEnd_guard_false c s h]
      rfl

/-- Witness for C2 at concrete inputs. -/
theorem C2_tts_name_error_witness :
    (pyStrip "hello world" ≠ "")
    ∧ (generate_streaming_base64_audio true exHttp "hello world" 512
          = ((false, [], some .TTS_ERROR), 0)
       ∧ generate_fast_base64_audio true exHttp "hello world"
          = ((false, "", some .TTS_ERROR), 0)
       ∧ generate_early_tts true exHttp "Hello there my friend. And more." = []
       ∧ (sendTurnEndNotification ⟨true, .yields ["Hello"], exRealTts⟩ exState).2.filter
            isMurfChunk = []
       ∧ (sendTurnEndNotification ⟨true, .yields ["Hello"], exRealTts⟩ exState).2.filter
            isEarlyAudio = []) :=
  ⟨by decide,
   C2_tts_name_error "hello world" exHttp 512 "Hello there my friend. And more."
     ⟨true, .yields ["Hello"], exRealTts⟩ exState (by decide) rfl⟩

/-- C1: in a `SPEAKING` state with a non-empty transcript observed at time `t`
(`t ≠ 0` since `last_speech_at` records an actual `time.time()`, and the code
itself skips the check when the float is `0.0`), a silence tick at time `now`
— a transcription cycle whose result carries no speech — emits exactly one
`turn_end` carrying the last non-empty transcript and resets the detector
(`current_transcript` cleared, `is_speaking` false) when
`now - t` strictly exceeds `turn_timeout` (1.5 s); within the timeout it emits
no `turn_end` and leaves the detector state unchanged. -/
theorem C1_silence_timeout (c : Collab) (s : DetState) (now t : ℤ) (frag : List Nat)
    (stt : SttOutcome) (hsil : sttIsSpeech stt = false)
    (hsp : s.is_speaking = true) (htr : pyStrip s.current_transcript ≠ "")
    (hls : s.last_speech_time = some t) (ht0 : t ≠ 0)
    (hgate : now - s.last_transcription_time ≥ transcription_interval) :
    (now - t > turn_timeout →
       (step c s (.audio now frag stt)).2.filter isTurnEnd
           = [Action.send (.turnEnd s.current_transcript)]
       ∧ (step c s (.audio now frag stt)).1.current_transcript = ""
       ∧ (step c s (.audio now frag stt)).1.is_speaking = false)
    ∧ (¬ now - t > turn_timeout →
       (step c s (.audio now frag stt)).2.filter isTurnEnd = []
       ∧ (step c s (.audio now frag stt)).1.current_transcript = s.current_transcript
       ∧ (step c s (.audio now frag stt)).1.is_speaking = true
       ∧ (step c s (.audio now frag stt)).1.last_speech_time = some t) := by
  set s1 : DetState :=
    { s with audio_chunks := s.audio_chunks ++ [frag],
             transcription_buffer := s.transcription_buffer ++ [frag] } with hs1
  have hstep := step_audio_cycle c s now frag stt hgate
  have hspk1 : s1.is_speaking = true := hsp
  have hls1 : s1.last_speech_time = some t := hls
  have hcyc : transcriptionCycle c s1 now stt = silenceTick c s1 now :=
    transcriptionCycle_silence c s1 now stt hsil
  have htick : silenceTick c s1 now = checkTurnTimeout c s1 now :=
    silenceTick_speaking c s1 now hspk1
  constructor
  · intro hto
    have hfire : checkTurnTimeout c s1 now = sendTurnEndNotification c s1 :=
      checkTurnTimeout_fires c s1 now t hspk1 hls1 ⟨ht0, hto⟩
    have hfilter := sendTurnEnd_filter_turnEnd c s1
    rw [if_pos ⟨hspk1, htr⟩] at hfilter
    have hfs := sendTurnEnd_fired_state c s1 hspk1 htr
    rw [hstep, ← hs1, hcyc, htick, hfire]
    refine ⟨?_, hfs.1, hfs.2.1⟩
    simp only [List.filter_cons, List.filter_append, hfilter]
    simp [isTurnEnd]
  · intro hto
    have hnof : checkTurnTimeout c s1 now = (s1, []) :=
      checkTurnTimeout_no_fire c s1 now t hls1 (fun hc => hto hc.2)
    rw [hstep, ← hs1, hcyc, htick, hnof]
    exact ⟨rfl, rfl, hsp, hls⟩

/-- Witness for C1: with transcript "turn on the lights" spoken at t = 1 s, a
silence tick at 2.7 s (gap 1.7 s > 1.5 s) fires exactly one `turn_end`, and a
silence tick at 2.0 s (gap 1.0 s) fires none. -/
theorem C1_silence_timeout_witness :
    (sttIsSpeech (.completed (some "")) = false
     ∧ exState.is_speaking = true
     ∧ pyStrip exState.current_transcript ≠ ""
     ∧ exState.last_speech_time = some 1000
     ∧ (1000 : ℤ) ≠ 0
     ∧ (2700 : ℤ) - exState.last_transcription_time ≥ transcription_interval
     ∧ (2000 : ℤ) - exState.last_transcription_time ≥ transcription_interval
     ∧ (2700 : ℤ) - 1000 > turn_timeout
     ∧ ¬ (2000 : ℤ) - 1000 > turn_timeout)
    ∧ ((step exCollabNoGemini exState (.audio 2700 [0] (.completed (some "")))).2.filter
          isTurnEnd = [Action.send (.turnEnd exState.current_transcript)]
       ∧ (step exCollabNoGemini exState
            (.audio 2700 [0] (.completed (some "")))).1.current_transcript = ""
       ∧ (step exCollabNoGemini exState
            (.audio 2700 [0] (.completed (some "")))).1.is_speaking = false)
    ∧ ((step exCollabNoGemini exState (.audio 2000 [0] (.completed (some "")))).2.filter
          isTurnEnd = []
       ∧ (step exCollabNoGemini exState
            (.audio 2000 [0] (.completed (some "")))).1.current_transcript
          = exState.current_transcript
       ∧ (step exCollabNoGemini exState
            (.audio 2000 [0] (.completed (some "")))).1.is_speaking = true
       ∧ (step exCollabNoGemini exState
            (.audio 2000 [0] (.completed (some "")))).1.last_speech_time = some 1000) :=
  ⟨by decide,
   (C1_silence_timeout exCollabNoGemini exState 2700 1000 [0] (.completed (some ""))
      (by decide) (by decide) (by decide) (by decide) (by decide) (by decide)).1
     (by decide),
   (C1_silence_timeout exCollabNoGemini exState 2000 1000 [0] (.completed (some ""))
      (by decide) (by decide) (by decide) (by decide) (by decide) (by decide)).2
     (by decide)⟩

/-- C6: an explicit `stop` while `SPEAKING` with a non-empty transcript emits
exactly one `turn_end` (and the teardown flush that follows emits no second
one); the teardown flush itself forces the same single `turn_end` on
connection error or close; a `stop` while not speaking, or with a
whitespace-only transcript, emits none. -/
theorem C6_stop_forces_flush (c : Collab) (s s2 s3 : DetState)
    (hsp : s.is_speaking = true) (htr : pyStrip s.current_transcript ≠ "")
    (hw : s2.is_speaking = false) (he : pyStrip s3.current_transcript = "") :
    (step c s .stop).2.filter isTurnEnd = [Action.send (.turnEnd s.current_transcript)]
    ∧ (sendTurnEndNotification c (step c s .stop).1).2.filter isTurnEnd = []
    ∧ (sendTurnEndNotification c s).2.filter isTurnEnd
        = [Action.send (.turnEnd s.current_transcript)]
    ∧ (step c s2 .stop).2.filter isTurnEnd = []
    ∧ (step c s3 .stop).2.filter isTurnEnd = [] := by
  have h1 := sendTurnEnd_filter_turnEnd c s
  rw [if_pos ⟨hsp, htr⟩] at h1
  refine ⟨?_, ?_, h1, ?_, ?_⟩
  · show ((sendTurnEndNotification c s).2
        ++ [Action.send (.status "Turn detection stopped")]).filter isTurnEnd = _
    rw [List.filter_append, h1]
    rfl
  · have hns : ¬(((step c s Event.stop).1).is_speaking = true
        ∧ pyStrip ((step c s Event.stop).1).current_transcript ≠ "") := by
      intro hcontra
      have hfalse : ((step c s Event.stop).1).is_speaking = false :=
        (sendTurnEnd_fired_state c s hsp htr).2.1
      exact Bool.false_ne_true (hfalse.symm.trans hcontra.1)
    rw [sendTurnEnd_guard_false _ _ hns]
    rfl
  · have hns : ¬(s2.is_speaking = true ∧ pyStrip s2.current_transcript ≠ "") := by
      intro hc
      rw [hw] at hc
      exact Bool.false_ne_true hc.1
    show ((sendTurnEndNotification c s2).2
        ++ [Action.send (.status "Turn detection stopped")]).filter isTurnEnd = []
    rw [sendTurnEnd_guard_false _ _ hns]
    rfl
  · have hns : ¬(s3.is_speaking = true ∧ pyStrip s3.current_transcript ≠ "") := by
      intro hc
      exact hc.2 he
    show ((sendTurnEndNotification c s3).2
        ++ [Action.send (.status "Turn detection stopped")]).filter isTurnEnd = []
    rw [sendTurnEnd_guard_false _ _ hns]
    rfl

/-- Witness for C6 at concrete states. -/
theorem C6_stop_forces_flush_witness :
    (exState.is_speaking = true
     ∧ pyStrip exState.current_transcript ≠ ""
     ∧ exWaiting.is_speaking = false
     ∧ pyStrip exBlankTranscript.current_transcript = "")
    ∧ ((step exCollabNoGemini exState .stop).2.filter isTurnEnd
        = [Action.send (.turnEnd exState.current_transcript)]
       ∧ (sendTurnEndNotification exCollabNoGemini
            (step exCollabNoGemini exState .stop).1).2.filter isTurnEnd = []
       ∧ (sendTurnEndNotification exCollabNoGemini exState).2.filter isTurnEnd
          = [Action.send (.turnEnd exState.current_transcript)]
       ∧ (step exCollabNoGemini exWaiting .stop).2.filter isTurnEnd = []
       ∧ (step exCollabNoGemini exBlankTranscript .stop).2.filter isTurnEnd = []) :=
  ⟨by decide,
   C6_stop_forces_flush exCollabNoGemini exState exWaiting exBlankTranscript
     (by decide) (by decide) (by decide) (by decide)⟩

/-- C5 counterexample: the claim asserts the terminal `llm_stream_chunk` is
sent strictly before the assistant append.  At this concrete turn the trace
contains exactly one assistant append and exactly one terminal chunk, and the
append occurs at a strictly smaller index — `send_turn_end_notification` runs
`chat_manager.add_message(..., ASSISTANT, ...)` (line 1226) before sending the
completion signal (line 1230), so the claimed order is false. -/
theorem C5_counterexample :
    ((sendTurnEndNotification exCollabLlmOk exState).2.filter isAssistantAppend).length = 1
    ∧ ((sendTurnEndNotification exCollabLlmOk exState).2.filter isTerminalLlmChunk).length = 1
    ∧ (sendTurnEndNotification exCollabLlmOk exState).2.findIdx isAssistantAppend
        < (sendTurnEndNotification exCollabLlmOk exState).2.findIdx isTerminalLlmChunk := by
  decide

/-- C5 (amended): when a turn fires with the Gemini key configured, the
pipeline appends `{assistant, R}` to the conversation history *first* and only
then emits the terminal `llm_stream_chunk` with `is_complete=true`, the full
accumulated `R`, and a `message_count` that already includes the assistant
entry; each occurs exactly once, adjacently in the trace. -/
theorem C5_amended_append_before_terminal (c : Collab) (s : DetState)
    (hsp : s.is_speaking = true) (htr : pyStrip s.current_transcript ≠ "")
    (hg : c.geminiConfigured = true) :
    (sendTurnEndNotification c s).2.filter isAssistantAppend
        = [Action.histAppend .assistant (turnR c s.current_transcript)]
    ∧ (sendTurnEndNotification c s).2.filter isTerminalLlmChunk
        = [Action.send (.llmStreamChunk "" true (some (turnR c s.current_transcript))
            (some (turnMc c s.history s.current_transcript)))]
    ∧ ∃ pre post,
        (sendTurnEndNotification c s).2
          = pre ++ Action.histAppend .assistant (turnR c s.current_transcript)
              :: Action.send (.llmStreamChunk "" true (some (turnR c s.current_transcript))
                  (some (turnMc c s.history s.current_transcript)))
              :: post := by
  rw [sendTurnEnd_fired_gemini c s hsp htr hg]
  refine ⟨?_, ?_, ?_⟩
  · unfold turnTrace
    simp only [List.filter_append]
    rw [filter_llmChunkActs isAssistantAppend (fun ch => rfl),
      filter_ttsStageActs isAssistantAppend (fun _ _ _ _ => rfl) (fun _ _ => rfl)
        (fun _ _ _ => rfl) (fun _ _ => rfl)]
    simp [List.filter_cons, isAssistantAppend]
  · unfold turnTrace
    simp only [List.filter_append]
    rw [filter_llmChunkActs isTerminalLlmChunk (fun ch => rfl),
      filter_ttsStageActs isTerminalLlmChunk (fun _ _ _ _ => rfl) (fun _ _ => rfl)
        (fun _ _ _ => rfl) (fun _ _ => rfl)]
    simp [List.filter_cons, isTerminalLlmChunk]
  · refine ⟨[.send (.turnEnd s.current_transcript),
        .histAppend .user s.current_transcript, .llmCall s.current_transcript]
        ++ llmChunkActs (generate_streaming_response true c.llm s.current_transcript),
      Action.ttsCall (turnR c s.current_transcript) 512
        :: ttsStageActs (c.tts (turnR c s.current_transcript) 512) s.current_transcript
            (turnR c s.current_transcript) (turnMc c s.history s.current_transcript), ?_⟩
    unfold turnTrace
    simp [List.append_assoc]

/-- Witness for the amended C5 at a concrete turn. -/
theorem C5_amended_append_before_terminal_witness :
    (exState.is_speaking = true
     ∧ pyStrip exState.current_transcript ≠ ""
     ∧ exCollabLlmOk.geminiConfigured = true)
    ∧ ((sendTurnEndNotification exCollabLlmOk exState).2.filter isAssistantAppend
        = [Action.histAppend .assistant (turnR exCollabLlmOk exState.current_transcript)]
       ∧ (sendTurnEndNotification exCollabLlmOk exState).2.filter isTerminalLlmChunk
        = [Action.send (.llmStreamChunk "" true
            (some (turnR exCollabLlmOk exState.current_transcript))
            (some (turnMc exCollabLlmOk exState.history exState.current_transcript)))]
       ∧ ∃ pre post,
          (sendTurnEndNotification exCollabLlmOk exState).2
            = pre ++ Action.histAppend .assistant
                  (turnR exCollabLlmOk exState.current_transcript)
                :: Action.send (.llmStreamChunk "" true
                    (some (turnR exCollabLlmOk exState.current_transcript))
                    (some (turnMc exCollabLlmOk exState.history exState.current_transcript)))
                :: post) :=
  ⟨by decide,
   C5_amended_append_before_terminal exCollabLlmOk exState (by decide) (by decide) rfl⟩

/-- C4 counterexample: the claim asserts that an LLM-stream failure produces
exactly one `pipeline_error`, no TTS invocation and no audio chunks.  At this
concrete turn the underlying Gemini stream raises, yet zero `pipeline_error`
messages are emitted and the full-response TTS stage *is* invoked once:
`generate_streaming_response` traps the exception inside the generator and
yields `"[LLM streaming error: ...]"` as an ordinary chunk, so the caller
never sees a failure. -/
theorem C4_counterexample :
    countP isPipelineError (sendTurnEndNotification exCollabLlmRaises exState).2 = 0
    ∧ countP isTtsCall (sendTurnEndNotification exCollabLlmRaises exState).2 = 1
    ∧ countP isMurfChunk (sendTurnEndNotification exCollabLlmRaises exState).2 = 0 := by
  decide

/-- C4 (amended): when the underlying LLM stream raises during a fired turn
with the Gemini key configured, the generator converts the exception into a
final yielded chunk `"[LLM streaming error: <msg>]"`, which the pipeline
forwards as an ordinary `llm_stream_chunk`; no `pipeline_error` message is
emitted, the LLM is called exactly once (no retry), and the full-response TTS
stage is still invoked exactly once on the accumulated text. -/
theorem C4_amended_llm_error_yields_chunk (c : Collab) (s : DetState)
    (pre : List String) (m : String)
    (hsp : s.is_speaking = true) (htr : pyStrip s.current_transcript ≠ "")
    (hg : c.geminiConfigured = true) (hllm : c.llm = .raises pre m) :
    countP isPipelineError (sendTurnEndNotification c s).2 = 0
    ∧ countP isTtsCall (sendTurnEndNotification c s).2 = 1
    ∧ countP isLlmCall (sendTurnEndNotification c s).2 = 1
    ∧ Action.send (.llmStreamChunk ("[LLM streaming error: " ++ m ++ "]") false none none)
        ∈ (sendTurnEndNotification c s).2 := by
  rw [sendTurnEnd_fired_gemini c s hsp htr hg]
  refine ⟨?_, ?_, ?_, ?_⟩
  · unfold countP turnTrace
    simp only [List.filter_append]
    rw [filter_llmChunkActs isPipelineError (fun ch => rfl),
      filter_ttsStageActs isPipelineError (fun _ _ _ _ => rfl) (fun _ _ => rfl)
        (fun _ _ _ => rfl) (fun _ _ => rfl)]
    simp [List.filter_cons, isPipelineError]
  · unfold countP turnTrace
    simp only [List.filter_append]
    rw [filter_llmChunkActs isTtsCall (fun ch => rfl),
      filter_ttsStageActs isTtsCall (fun _ _ _ _ => rfl) (fun _ _ => rfl)
        (fun _ _ _ => rfl) (fun _ _ => rfl)]
    simp [List.filter_cons, isTtsCall]
  · unfold countP turnTrace
    simp only [List.filter_append]
    rw [filter_llmChunkActs isLlmCall (fun ch => rfl),
      filter_ttsStageActs isLlmCall (fun _ _ _ _ => rfl) (fun _ _ => rfl)
        (fun _ _ _ => rfl) (fun _ _ => rfl)]
    simp [List.filter_cons, isLlmCall]
  · have hchunks : generate_streaming_response true c.llm s.current_transcript
        = pre.filter (fun ch => ch ≠ "") ++ ["[LLM streaming error: " ++ m ++ "]"] := by
      unfold generate_streaming_response
      rw [hllm]
      simp [htr]
    unfold turnTrace llmChunkActs
    rw [hchunks]
    apply List.mem_append.mpr
    left
    apply List.mem_append.mpr
    left
    apply List.mem_append.mpr
    right
    apply List.mem_map.mpr
    exact ⟨"[LLM streaming error: " ++ m ++ "]", by simp, rfl⟩

/-- Witness for the amended C4 at a concrete turn whose stream raises. -/
theorem C4_amended_llm_error_yields_chunk_witness :
    (exState.is_speaking = true
     ∧ pyStrip exState.current_transcript ≠ ""
     ∧ exCollabLlmRaises.geminiConfigured = true
     ∧ exCollabLlmRaises.llm = .raises [] "Stream failed")
    ∧ (countP isPipelineError (sendTurnEndNotification exCollabLlmRaises exState).2 = 0
       ∧ countP isTtsCall (sendTurnEndNotification exCollabLlmRaises exState).2 = 1
       ∧ countP isLlmCall (sendTurnEndNotification exCollabLlmRaises exState).2 = 1
       ∧ Action.send (.llmStreamChunk ("[LLM streaming error: " ++ "Stream failed" ++ "]")
            false none none) ∈ (sendTurnEndNotification exCollabLlmRaises exState).2) :=
  ⟨by decide,
   C4_amended_llm_error_yields_chunk exCollabLlmRaises exState [] "Stream failed"
     (by decide) (by decide) rfl rfl⟩

/-- C8: when the full-response TTS call of a fired turn succeeds with `N`
base64 chunks, the `murf_base64_audio_chunk` messages of the turn are exactly
the chunks in index order `0..N-1`, each carrying `total_chunks = N` and
`is_complete = false`, followed by exactly one terminal message with
`chunk_index = N`, empty payload and `is_complete = true`. -/
theorem C8_murf_chunk_order (c : Collab) (s : DetState) (cs : List String)
    (et : Option ErrorType)
    (hsp : s.is_speaking = true) (htr : pyStrip s.current_transcript ≠ "")
    (hg : c.geminiConfigured = true)
    (htts : c.tts (turnR c s.current_transcript) 512 = (true, cs, et)) :
    (sendTurnEndNotification c s).2.filter isMurfChunk
      = (cs.enum.map (fun q => Action.send (.murfBase64AudioChunk q.2 q.1 cs.length false
            (turnR c s.current_transcript))))
        ++ [Action.send (.murfBase64AudioChunk "" cs.length cs.length true
            (turnR c s.current_transcript))] := by
  rw [sendTurnEnd_fired_gemini c s hsp htr hg]
  unfold turnTrace
  rw [htts]
  simp only [List.filter_append]
  rw [filter_llmChunkActs isMurfChunk (fun ch => rfl)]
  unfold ttsStageActs
  simp only [if_true, List.filter_append]
  unfold murfChunkActs
  rw [List.filter_append,
    filter_map_const_true
      (fun q : Nat × String =>
        Action.send (.murfBase64AudioChunk q.2 q.1 ((true, cs, et) : Bool × List String × Option ErrorType).2.1.length false (turnR c s.current_transcript)))
      isMurfChunk (fun q => rfl) cs.enum]
  simp [List.filter_cons, isMurfChunk]

/-- Witness for C8 with a TTS collaborator succeeding with two chunks. -/
theorem C8_murf_chunk_order_witness :
    (exState.is_speaking = true
     ∧ pyStrip exState.current_transcript ≠ ""
     ∧ exCollabTtsOk.geminiConfigured = true
     ∧ exCollabTtsOk.tts (turnR exCollabTtsOk exState.current_transcript) 512
        = (true, ["QUJD", "REVG"], none))
    ∧ (sendTurnEndNotification exCollabTtsOk exState).2.filter isMurfChunk
      = ((["QUJD", "REVG"] : List String).enum.map
          (fun q => Action.send (.murfBase64AudioChunk q.2 q.1
              (["QUJD", "REVG"] : List String).length false
              (turnR exCollabTtsOk exState.current_transcript))))
        ++ [Action.send (.murfBase64AudioChunk ""
            (["QUJD", "REVG"] : List String).length
            (["QUJD", "REVG"] : List String).length true
            (turnR exCollabTtsOk exState.current_transcript))] :=
  ⟨by decide,
   C8_murf_chunk_order exCollabTtsOk exState ["QUJD", "REVG"] none
     (by decide) (by decide) rfl rfl⟩

/-- C9: when the LLM stream of a fired turn completes but the full-response
TTS stage fails, the turn emits zero `murf_base64_audio_chunk` messages and
exactly one `audio_fallback` carrying the canned phrase for the failure's
error class (`TTS_ERROR` when the error type is absent); the terminal
`llm_stream_chunk` with `is_complete=true` was already sent before the TTS
invocation and the fallback; and the conversation history keeps both the user
and the assistant entries of the turn. -/
theorem C9_tts_failure_fallback (c : Collab) (s : DetState)
    (hsp : s.is_speaking = true) (htr : pyStrip s.current_transcript ≠ "")
    (hg : c.geminiConfigured = true)
    (hfail : (c.tts (turnR c s.current_transcript) 512).1 = false) :
    (sendTurnEndNotification c s).2.filter isMurfChunk = []
    ∧ (sendTurnEndNotification c s).2.filter isAudioFallback
        = [Action.send (.audioFallback (c.tts (turnR c s.current_transcript) 512).2.2
            (fallbackTexts ((c.tts (turnR c s.current_transcript) 512).2.2.getD .TTS_ERROR)))]
    ∧ (∃ pre post,
        (sendTurnEndNotification c s).2
          = pre ++ Action.send (.llmStreamChunk "" true (some (turnR c s.current_transcript))
                (some (turnMc c s.history s.current_transcript)))
              :: Action.ttsCall (turnR c s.current_transcript) 512
              :: Action.send (.audioFallback (c.tts (turnR c s.current_transcript) 512).2.2
                  (fallbackTexts ((c.tts (turnR c s.current_transcript) 512).2.2.getD
                    .TTS_ERROR)))
              :: post)
    ∧ (sendTurnEndNotification c s).1.history
        = turnHist c s.history s.current_transcript := by
  rw [sendTurnEnd_fired_gemini c s hsp htr hg]
  refine ⟨?_, ?_, ?_, rfl⟩
  · unfold turnTrace
    rw [ttsStage_fallback hfail]
    simp only [List.filter_append]
    rw [filter_llmChunkActs isMurfChunk (fun ch => rfl)]
    simp [List.filter_cons, isMurfChunk]
  · unfold turnTrace
    rw [ttsStage_fallback hfail]
    simp only [List.filter_append]
    rw [filter_llmChunkActs isAudioFallback (fun ch => rfl)]
    simp [List.filter_cons, isAudioFallback]
  · refine ⟨[.send (.turnEnd s.current_transcript),
        .histAppend .user s.current_transcript, .llmCall s.current_transcript]
        ++ llmChunkActs (generate_streaming_response true c.llm s.current_transcript)
        ++ [Action.histAppend .assistant (turnR c s.current_transcript)], [], ?_⟩
    unfold turnTrace
    rw [ttsStage_fallback hfail]
    simp [List.append_assoc]

/-- Witness for C9 with the real (failing) TTS service. -/
theorem C9_tts_failure_fallback_witness :
    (exState.is_speaking = true
     ∧ pyStrip exState.current_transcript ≠ ""
     ∧ exCollabLlmOk.geminiConfigured = true
     ∧ (exCollabLlmOk.tts (turnR exCollabLlmOk exState.current_transcript) 512).1 = false)
    ∧ ((sendTurnEndNotification exCollabLlmOk exState).2.filter isMurfChunk = []
       ∧ (sendTurnEndNotification exCollabLlmOk exState).2.filter isAudioFallback
          = [Action.send (.audioFallback
              (exCollabLlmOk.tts (turnR exCollabLlmOk exState.current_transcript) 512).2.2
              (fallbackTexts
                ((exCollabLlmOk.tts
                    (turnR exCollabLlmOk exState.current_transcript) 512).2.2.getD
                  .TTS_ERROR)))]
       ∧ (∃ pre post,
          (sendTurnEndNotification exCollabLlmOk exState).2
            = pre ++ Action.send (.llmStreamChunk "" true
                  (some (turnR exCollabLlmOk exState.current_transcript))
                  (some (turnMc exCollabLlmOk exState.history exState.current_transcript)))
                :: Action.ttsCall (turnR exCollabLlmOk exState.current_transcript) 512
                :: Action.send (.audioFallback
                    (exCollabLlmOk.tts
                      (turnR exCollabLlmOk exState.current_transcript) 512).2.2
                    (fallbackTexts
                      ((exCollabLlmOk.tts
                          (turnR exCollabLlmOk exState.current_transcript) 512).2.2.getD
                        .TTS_ERROR)))
                :: post)
       ∧ (sendTurnEndNotification exCollabLlmOk exState).1.history
          = turnHist exCollabLlmOk exState.history exState.current_transcript) :=
  ⟨by decide,
   C9_tts_failure_fallback exCollabLlmOk exState (by decide) (by decide) rfl (by decide)⟩

/-- C3: a `turn_end` is only ever emitted after a non-empty transcription.
(1) A session whose transcription cycles never yield speech emits no
`turn_end` at all — across all fragments, `stop` messages, and the final
teardown flush.  (2) Every `turn_end` emitted in any session carries a
transcript that is non-empty after stripping.  (3) After a step that emitted a
`turn_end`, no later step — and no teardown flush — emits another `turn_end`
until a cycle yields non-empty speech: at most one `turn_end` per contiguous
speech interval. -/
theorem C3_no_silent_turn_end :
    (∀ (c : Collab) (evs : List Event),
        (∀ e ∈ evs, eventIsSpeech e = false) →
        (sessionTrace c evs).filter isTurnEnd = [])
    ∧ (∀ (c : Collab) (evs : List Event) (tr : String),
        Action.send (.turnEnd tr) ∈ sessionTrace c evs → pyStrip tr ≠ "")
    ∧ (∀ (c : Collab) (pre : List Event) (e1 : Event) (mid : List Event) (e2 : Event),
        (step c (run c initState pre).1 e1).2.filter isTurnEnd ≠ [] →
        (∀ e ∈ mid, eventIsSpeech e = false) →
        (step c (run c (step c (run c initState pre).1 e1).1 mid).1 e2).2.filter
            isTurnEnd = []
        ∧ (sendTurnEndNotification c
            (run c (step c (run c initState pre).1 e1).1 mid).1).2.filter
            isTurnEnd = []) := by
  refine ⟨?_, ?_, ?_⟩
  · intro c evs hns
    unfold sessionTrace
    rw [List.filter_append]
    have h := run_no_speech c evs initState hns rfl
    rw [h.2,
      sendTurnEnd_guard_false _ _ (fun hc => Bool.false_ne_true (h.1.symm.trans hc.1))]
    rfl
  · intro c evs tr h
    have h' : Action.send (.turnEnd tr)
        ∈ (run c initState evs).2
          ++ (sendTurnEndNotification c (run c initState evs).1).2 := h
    rcases List.mem_append.mp h' with h1 | h2
    · exact run_turnEnd_mem c evs initState tr h1
    · exact sendTurnEnd_turnEnd_mem c _ tr h2
  · intro c pre e1 mid e2 hfire hmid
    rcases step_turnEnd_cases c (run c initState pre).1 e1 with h | h
    · exact absurd h hfire
    · have hrun := run_no_speech c mid (step c (run c initState pre).1 e1).1 hmid h.2.2
      constructor
      · by_cases hspe : eventIsSpeech e2 = true
        · exact step_speech_no_turnEnd c _ e2 hspe
        · exact (step_no_speech c _ e2 (Bool.eq_false_iff.mpr hspe) hrun.1).2
      · rw [sendTurnEnd_guard_false _ _
          (fun hc => Bool.false_ne_true (hrun.1.symm.trans hc.1))]
        rfl

/-- Witness for C3 at concrete sessions: a silence-only session, a session
whose `turn_end` carries "turn on the lights", and a fired turn followed by a
silence-only stretch with a second `stop` and teardown. -/
theorem C3_no_silent_turn_end_witness :
    ((∀ e ∈ exEvsSilence, eventIsSpeech e = false)
     ∧ Action.send (.turnEnd "turn on the lights")
        ∈ sessionTrace exCollabNoGemini exEvsSpeech
     ∧ (step exCollabNoGemini (run exCollabNoGemini initState exPreSpeech).1
          Event.stop).2.filter isTurnEnd ≠ []
     ∧ (∀ e ∈ exMidSilence, eventIsSpeech e = false))
    ∧ (sessionTrace exCollabNoGemini exEvsSilence).filter isTurnEnd = []
    ∧ pyStrip "turn on the lights" ≠ ""
    ∧ ((step exCollabNoGemini
          (run exCollabNoGemini
            (step exCollabNoGemini (run exCollabNoGemini initState exPreSpeech).1
              Event.stop).1
            exMidSilence).1
          Event.stop).2.filter isTurnEnd = []
       ∧ (sendTurnEndNotification exCollabNoGemini
          (run exCollabNoGemini
            (step exCollabNoGemini (run exCollabNoGemini initState exPreSpeech).1
              Event.stop).1
            exMidSilence).1).2.filter isTurnEnd = []) :=
  ⟨by decide,
   C3_no_silent_turn_end.1 exCollabNoGemini exEvsSilence (by decide),
   C3_no_silent_turn_end.2.1 exCollabNoGemini exEvsSpeech "turn on the lights" (by decide),
   C3_no_silent_turn_end.2.2 exCollabNoGemini exPreSpeech Event.stop exMidSilence
     Event.stop (by decide) (by decide)⟩

end VoiceAgent
